import Mathlib

/-!
Shallow embedding of `gof/result.py`: the `Result` base class (value node of
an operator graph), its `PythonResult` subclass, and the semantics of the C
code fragments `PythonResult` emits.

Modelling conventions:
* Python object identity (`is`) is modelled by a numeric object id (`oid`);
  two live Python objects are identical iff their ids are equal.
* Arbitrary Python data objects are modelled by their id (`Nat`); the Python
  value `None` is `Option.none`, so `data is self._data[0]` is decidable
  equality on `Option Nat` (`None is None` is true, `None` is never
  identical to a non-`None` object, and two objects are identical iff their
  ids agree).
* Python exceptions are modelled by `Except PyError`; raising aborts the
  statement sequence, so a method that raises returns `.error e` and leaves
  the receiver unchanged (the functional result is simply not produced).
* The one-element list `self._data = [None]` is modelled as a plain
  `Option Nat` field, as the list never changes length and only slot 0 is
  ever read or written.
-/

set_option autoImplicit false

deriving instance DecidableEq for Except

namespace Gof

/-- Errors that the embedded methods can raise.  `abstractFunctionError`
models `utils.AbstractFunctionError`. Modelled from the spec: the `utils`
module is not part of the source fragment; the spec calls this signal
`UnsupportedCapability`, "a codegen/structural-comparison/filter hook has no
implementation for this node type".  `valueError`/`typeError`/`nameError`
model the builtin Python exceptions of those names; the `valueError`
messages keep the fixed text of the source, dropping the interpolated
`str(self)` part. -/
inductive PyError where
  | abstractFunctionError
  | valueError (msg : String)
  | typeError (msg : String)
  | nameError (msg : String)
  deriving DecidableEq, Repr

/-- The `Result` state keywords: the classes `Empty`, `Allocated`,
`Computed` of the source, used as tags. -/
inductive State where
  | Empty
  | Allocated
  | Computed
  deriving DecidableEq, Repr

/-- The owning `Op` of a `Result`, as far as `result.py` observes it:
its object id (for the `is` comparisons in `__set_role`), the string the
`%s` format produces from its class (used by the `name` property), and the
object ids of its `outputs` list (searched by `owner.outputs.index(self)`).
The `Op` class itself is an external collaborator. -/
structure Owner where
  oid : Nat
  clsStr : String
  outputs : List Nat
  deriving DecidableEq, Repr

/-- The `Result` instance record: `oid` is the Python object id of the
instance itself; the remaining fields are the slots
`_role`, `_data` (slot 0 of the one-element list), `state`, `_name`,
`_hash_id` of the source class. -/
structure Result where
  oid : Nat
  _role : Option (Owner × Int)
  _data : Option Nat
  state : State
  _name : Option String
  _hash_id : Nat
  deriving DecidableEq, Repr

namespace Result

/-- `Result.__init__(self, role=None, name=None)`: sets `_role` to `None`
and, when a role is supplied, binds it through the role setter (which on a
fresh instance always just stores it); sets `_data = [None]`,
`state = Empty`, the name (the `TypeError` branch of the name setter cannot
fire in this typed model, where a name is always a string or `None`), and
`_hash_id = utils.hashgen()`.  Modelled from the spec: `utils.hashgen` is
not part of the source fragment; per the spec the identity/hash token is
"assigned at construction" from a generator independent of the node's
contents, so the generated value is taken as the parameter `hashId`. -/
def init (oid : Nat) (role : Option (Owner × Int)) (name : Option String)
    (hashId : Nat) : Result :=
  { oid := oid, _role := role, _data := none, state := State.Empty,
    _name := name, _hash_id := hashId }

/-- `Result.__eq__`: `return self is other` — identity of the instances. -/
def eq (a b : Result) : Bool :=
  a.oid == b.oid

/-- `Result.__ne__`: `return self is not other`. -/
def ne (a b : Result) : Bool :=
  !(a.oid == b.oid)

/-- `Result.__hash__`: `return self._hash_id`. -/
def hash (r : Result) : Nat :=
  r._hash_id

/-- `Result.__get_role`. -/
def role (r : Result) : Option (Owner × Int) :=
  r._role

/-- `Result.__set_role(self, role)`: unpacks `(owner, index)`; when a role
is already stored, a different owner (`_owner is not owner`) raises
`ValueError("Result %s already has an owner.")`, an equal owner with a
different index raises `ValueError("Result %s was already mapped to a
different index.")`, and an equal owner with an equal index returns without
doing anything; when no role is stored the pair is stored.  A raise leaves
`_role` untouched: no updated `Result` is produced on the `.error` path. -/
def set_role (r : Result) (role : Owner × Int) : Except PyError Result :=
  match r._role with
  | some (o, i) =>
    if o.oid ≠ role.1.oid then
      .error (PyError.valueError "already has an owner.")
    else if i ≠ role.2 then
      .error (PyError.valueError "was already mapped to a different index.")
    else
      .ok r
  | none => .ok { r with _role := some (role.1, role.2) }

/-- `Result.__get_owner`: `None` if `_role` is `None`, else `_role[0]`. -/
def owner (r : Result) : Option Owner :=
  match r._role with
  | none => none
  | some (o, _) => some o

/-- `Result.__get_index`: `None` if `_role` is `None`, else `_role[1]`. -/
def index (r : Result) : Option Int :=
  match r._role with
  | none => none
  | some (_, i) => some i

/-- `Result.__get_data`: `return self._data[0]`. -/
def data (r : Result) : Option Nat :=
  r._data

/-- `Result.filter` of the base class: `raise AbstractFunctionError()`. -/
def filter (_d : Nat) : Except PyError Nat :=
  .error PyError.abstractFunctionError

/-- `Result.__set_data(self, data)`, parametrised by the dynamic `filter`
method of the concrete class (`Result.filter` for the base class and for
`PythonResult`, which does not override it).  `data is self._data[0]`
returns immediately; `data is None` clears the slot and sets `state =
Empty`; otherwise `filter` is attempted, only `AbstractFunctionError` being
caught (any other exception propagates before the slot is written), and the
(possibly filtered) datum is stored with `state = Computed`. -/
def set_data (filt : Nat → Except PyError Nat) (r : Result) (d : Option Nat) :
    Except PyError Result :=
  if d = r._data then
    .ok r
  else
    match d with
    | none => .ok { r with _data := none, state := State.Empty }
    | some v =>
      match filt v with
      | .ok w => .ok { r with _data := some w, state := State.Computed }
      | .error PyError.abstractFunctionError =>
          .ok { r with _data := some v, state := State.Computed }
      | .error e => .error e

/-- Truthiness of the `_name` slot (`if self._name:`): `None` and the empty
string are falsy, every other string is truthy. -/
def truthyName : Option String → Bool
  | none => false
  | some s => !(s == "")

/-- `Result.__get_name`: the stored `_name` when truthy; otherwise, when
`_role` is set (a pair is always truthy), the string
`"%s.%i" % (self.owner.__class__, self.owner.outputs.index(self))` —
`list.index` compares by `__eq__`, which is identity here, scans for the
first occurrence and raises `ValueError` when `self` does not occur;
otherwise `None`. -/
def getName (r : Result) : Except PyError (Option String) :=
  if truthyName r._name then
    .ok r._name
  else
    match r._role with
    | some (o, _i) =>
      match o.outputs.findIdx? (fun x => x == r.oid) with
      | some k => .ok (some (o.clsStr ++ "." ++ toString k))
      | none => .error (PyError.valueError "is not in list")
    | none => .ok none

/-- `Result.__set_name`: stores the name.  The source raises `TypeError`
when the argument is neither a string nor `None`; in this typed model the
argument is always `Option String`, so that branch cannot fire. -/
def set_name (r : Result) (n : Option String) : Result :=
  { r with _name := n }

/-- `Result.c_is_simple`: `return False`. -/
def c_is_simple (_r : Result) : Bool :=
  false

/-- `Result.c_literal`: `raise AbstractFunctionError()`. -/
def c_literal (_r : Result) : Except PyError String :=
  .error PyError.abstractFunctionError

/-- `Result.c_declare`: `raise AbstractFunctionError()`. -/
def c_declare (_r : Result) (_name _sub : String) : Except PyError String :=
  .error PyError.abstractFunctionError

/-- `Result.c_extract`: `raise AbstractFunctionError()`. -/
def c_extract (_r : Result) (_name _sub : String) : Except PyError String :=
  .error PyError.abstractFunctionError

/-- `Result.c_cleanup`: `raise AbstractFunctionError()`. -/
def c_cleanup (_r : Result) (_name _sub : String) : Except PyError String :=
  .error PyError.abstractFunctionError

/-- `Result.c_sync`: `raise AbstractFunctionError()`. -/
def c_sync (_r : Result) (_name _sub : String) : Except PyError String :=
  .error PyError.abstractFunctionError

/-- `Result.c_compile_args`: `raise AbstractFunctionError()`. -/
def c_compile_args (_r : Result) : Except PyError (List String) :=
  .error PyError.abstractFunctionError

/-- `Result.c_headers`: `raise AbstractFunctionError()`. -/
def c_headers (_r : Result) : Except PyError (List String) :=
  .error PyError.abstractFunctionError

/-- `Result.c_libraries`: `raise AbstractFunctionError()`. -/
def c_libraries (_r : Result) : Except PyError (List String) :=
  .error PyError.abstractFunctionError

/-- `Result.c_support_code`: `raise AbstractFunctionError()`. -/
def c_support_code (_r : Result) : Except PyError String :=
  .error PyError.abstractFunctionError

/-- `Result.same_properties`: the source line is `raise AbstractFunction()`,
and the name `AbstractFunction` is defined nowhere (the module only imports
`AbstractFunctionError` from `utils`), so executing this method raises
`NameError`, not `AbstractFunctionError`. -/
def same_properties (_r _other : Result) : Except PyError Bool :=
  .error (PyError.nameError "AbstractFunction")

/-- `Result.__copy__` of the base class: `raise AbstractFunctionError()`. -/
def copy (_r : Result) : Except PyError Result :=
  .error PyError.abstractFunctionError

end Result

/-!
`PythonResult`: the subclass storing a generic Python object.  It overrides
only the four codegen emitters, `same_properties` and `__copy__`; in
particular it inherits `Result.filter`, so its data setter stores raw data.
-/

namespace PythonResult

/-- `PythonResult.c_declare`: emits `PyObject* <name>;` (the model performs
the `%(name)s` substitution of the source template). -/
def c_declare (_r : Result) (name _sub : String) : Except PyError String :=
  .ok ("PyObject* " ++ name ++ ";")

/-- `PythonResult.c_extract`: emits
`Py_XINCREF(py_<name>); <name> = py_<name>;`. -/
def c_extract (_r : Result) (name _sub : String) : Except PyError String :=
  .ok ("Py_XINCREF(py_" ++ name ++ "); " ++ name ++ " = py_" ++ name ++ ";")

/-- `PythonResult.c_cleanup`: emits `Py_XDECREF(<name>);`. -/
def c_cleanup (_r : Result) (name _sub : String) : Except PyError String :=
  .ok ("Py_XDECREF(" ++ name ++ ");")

/-- `PythonResult.c_sync`: emits
`Py_XDECREF(py_<name>); py_<name> = <name>; Py_XINCREF(py_<name>);`. -/
def c_sync (_r : Result) (name _sub : String) : Except PyError String :=
  .ok ("Py_XDECREF(py_" ++ name ++ "); py_" ++ name ++ " = " ++ name ++
    "; Py_XINCREF(py_" ++ name ++ ");")

/-- `PythonResult.same_properties`: `return False`. -/
def same_properties (_r _other : Result) : Except PyError Bool :=
  .ok false

end PythonResult

/-!
A minimal heap of Python data objects, for `copy.copy` in
`PythonResult.__copy__`: each object id carries a payload (an integer
stands in for the object's mutable contents).
-/

/-- Payload store: object id to current contents. -/
def Heap : Type := Nat → Int

/-- `copy.copy(d)` where `d` is `self.data`: `copy.copy(None)` is `None`
itself; on an object it allocates a fresh object (`fresh` is its id, chosen
unused by the caller) whose payload equals the source object's payload. -/
def copyObj (heap : Heap) (fresh : Nat) : Option Nat → Option Nat × Heap
  | none => (none, heap)
  | some o => (some fresh, fun x => if x = fresh then heap o else heap x)

/-- In-place mutation of the object `o` (e.g. `lst.append`, attribute
assignment): replaces its payload, leaving every other object alone. -/
def setPayload (heap : Heap) (o : Nat) (v : Int) : Heap :=
  fun x => if x = o then v else heap x

/-- `PythonResult.__copy__`:
`rval = PythonResult(None, self.name)` (note: reads the `name` property,
which can itself raise `ValueError`), then
`rval.data = copy.copy(self.data)` through the data setter with the
inherited `Result.filter`, then returns `rval`.  `freshRid`, `freshHash`
and `freshObj` are the object id and `utils.hashgen()` value of the new
instance and the id `copy.copy` allocates; the caller supplies them
unused. -/
def pythonResultCopy (r : Result) (heap : Heap)
    (freshRid freshHash freshObj : Nat) :
    Except PyError (Result × Heap) := do
  let nm ← r.getName
  let rval := Result.init freshRid none nm freshHash
  let (c, heap2) := copyObj heap freshObj r._data
  let rval2 ← rval.set_data Result.filter c
  return (rval2, heap2)

/-!
Semantics of the C fragments emitted by `PythonResult`.  The state of one
compiled binding consists of the host-visible variable `py_<name>`
(`pyv`), the native handle `<name>` declared by `c_declare` (`cv`), and
the reference count of every host object.  `Py_XINCREF`/`Py_XDECREF` are
no-ops on `NULL` (`none`) and otherwise adjust the count of the referenced
object; deallocation at count zero is not modelled, only the count.
-/

/-- The two C variables of one binding: `pyv` is `py_%(name)s`, `cv` is the
variable `%(name)s` declared by `c_declare`. -/
inductive CVar where
  | pyv
  | cv
  deriving DecidableEq, Repr

/-- The instruction forms occurring in the emitted fragments. -/
inductive CInstr where
  | xincref (v : CVar)
  | xdecref (v : CVar)
  | assign (dst src : CVar)
  deriving DecidableEq, Repr

/-- Machine state of one compiled binding: the two pointer variables and
the per-object reference counts. -/
structure CState where
  py : Option Nat
  cvr : Option Nat
  rc : Nat → Int

/-- Read a C variable. -/
def CState.get (s : CState) : CVar → Option Nat
  | CVar.pyv => s.py
  | CVar.cv => s.cvr

/-- Write a C variable. -/
def CState.setVar (s : CState) : CVar → Option Nat → CState
  | CVar.pyv, o => { s with py := o }
  | CVar.cv, o => { s with cvr := o }

/-- Adjust the count of the object a pointer references; `NULL` pointers
(`none`) leave every count alone, exactly as `Py_XINCREF`/`Py_XDECREF`. -/
def bump (rc : Nat → Int) : Option Nat → Int → (Nat → Int)
  | none, _ => rc
  | some o, d => fun x => if x = o then rc x + d else rc x

/-- One instruction step. -/
def step (s : CState) : CInstr → CState
  | CInstr.xincref v => { s with rc := bump s.rc (s.get v) 1 }
  | CInstr.xdecref v => { s with rc := bump s.rc (s.get v) (-1) }
  | CInstr.assign dst src => s.setVar dst (s.get src)

/-- Run a fragment from a state. -/
def runC (l : List CInstr) (s : CState) : CState :=
  l.foldl step s

/-- `PythonResult.c_declare` fragment `PyObject* %(name)s;`: introduces the
handle variable and touches no reference count; the uninitialised handle is
never read before `c_extract` writes it, so the fragment is the empty
instruction list. -/
def declareInstrs : List CInstr := []

/-- `PythonResult.c_extract` fragment:
`Py_XINCREF(py_%(name)s); %(name)s = py_%(name)s;`. -/
def extractInstrs : List CInstr :=
  [CInstr.xincref CVar.pyv, CInstr.assign CVar.cv CVar.pyv]

/-- `PythonResult.c_cleanup` fragment: `Py_XDECREF(%(name)s);`. -/
def cleanupInstrs : List CInstr :=
  [CInstr.xdecref CVar.cv]

/-- `PythonResult.c_sync` fragment:
`Py_XDECREF(py_%(name)s); py_%(name)s = %(name)s;
Py_XINCREF(py_%(name)s);`. -/
def syncInstrs : List CInstr :=
  [CInstr.xdecref CVar.pyv, CInstr.assign CVar.pyv CVar.cv,
   CInstr.xincref CVar.pyv]

/-!
Concrete instances used to exercise the embedded operations.
-/

/-- A freshly constructed node: `Result()` with object id 1 and
`utils.hashgen()` value 42. -/
def rBase : Result := Result.init 1 none none 42

/-- A node whose externally writable `state` slot was set to `Allocated`
by the execution layer while its data slot still holds `None`. -/
def rAllocated : Result :=
  { oid := 10, _role := none, _data := none, state := State.Allocated,
    _name := none, _hash_id := 7 }

/-- An owning op with object id 100 whose `outputs` list holds the node
with object id 20. -/
def opA : Owner := { oid := 100, clsStr := "Op", outputs := [20] }

/-- A second, distinct op (different object id). -/
def opB : Owner := { oid := 101, clsStr := "Op2", outputs := [20] }

/-- A node already bound to role `(opA, 2)`. -/
def rBound : Result :=
  { oid := 20, _role := some (opA, 2), _data := none, state := State.Empty,
    _name := none, _hash_id := 8 }

/-- Two distinct instances (different object ids) with identical data and
identical role. -/
def rTwinA : Result :=
  { oid := 50, _role := some (opA, 0), _data := some 5,
    state := State.Computed, _name := none, _hash_id := 11 }

/-- See `rTwinA`: same slots, different object id. -/
def rTwinB : Result := { rTwinA with oid := 51 }

/-- An unbound node holding the datum with object id 5. -/
def rDatum : Result :=
  { oid := 70, _role := none, _data := some 5, state := State.Computed,
    _name := none, _hash_id := 12 }

/-!
Claim theorems.
-/

/-- C1 counterexample: a node whose `state` slot holds `Allocated` while
the data slot already holds `None` (the `Allocated` tag is written by the
external execution layer, never by `__set_data` itself).  Assigning
`data = None` then takes the identity short-circuit `data is
self._data[0]` and returns immediately, so the node keeps
`state == Allocated`, contradicting the claim that the write always
leaves `state == Empty`. -/
theorem c1_counterexample :
    rAllocated.set_data Result.filter none = Except.ok rAllocated ∧
    rAllocated.state ≠ State.Empty := by
  decide

/-- C1 amended: assigning the sentinel `None` always leaves a node whose
data reads `None`; when the prior datum was non-`None` the slot is cleared
and the state becomes `Empty`, but when the prior datum was already `None`
the assignment is an identity no-op that leaves the node — including an
externally set `Allocated` or `Computed` state — completely unchanged. -/
theorem c1_amended (filt : Nat → Except PyError Nat) (r : Result) :
    r.set_data filt none =
      Except.ok (if r._data = none then r
                 else { r with _data := none, state := State.Empty }) := by
  unfold Result.set_data
  cases h : r._data with
  | none => simp [h]
  | some v => simp [h]

/-- C2: once a node's role is bound to `(owner, index)`, re-assigning the
very same pair is a no-op returning the node unchanged; a pair with a
different owner (any index) raises
`ValueError("... already has an owner.")`; the same owner with a different
index raises `ValueError("... was already mapped to a different index.")`.
Both failures raise before any assignment, so no updated node is produced
and the stored role is untouched. -/
theorem c2_role_rebind (r : Result) (o o2 : Owner) (i i2 j : Int)
    (h : r._role = some (o, i)) (ho : o2.oid ≠ o.oid) (hi : i2 ≠ i) :
    r.set_role (o, i) = Except.ok r ∧
    r.set_role (o2, j) =
      Except.error (PyError.valueError "already has an owner.") ∧
    r.set_role (o, i2) =
      Except.error
        (PyError.valueError "was already mapped to a different index.") := by
  unfold Result.set_role
  refine ⟨?_, ?_, ?_⟩ <;> simp [h, Ne.symm ho, Ne.symm hi]

/-- C2 witness: the bound node `rBound` with role `(opA, 2)`. -/
theorem c2_witness :
    rBound.set_role (opA, 2) = Except.ok rBound ∧
    rBound.set_role (opB, 5) =
      Except.error (PyError.valueError "already has an owner.") ∧
    rBound.set_role (opA, 3) =
      Except.error
        (PyError.valueError "was already mapped to a different index.") :=
  c2_role_rebind rBound opA opB 2 3 5 (by decide) (by decide) (by decide)

/-- C3 (code bug evaluation): on the base class every codegen hook —
`c_literal`, `c_declare`, `c_extract`, `c_cleanup`, `c_sync`,
`c_compile_args`, `c_headers`, `c_libraries`, `c_support_code` — raises
`AbstractFunctionError` as the claim states, but `same_properties` raises
`NameError` instead: its body is `raise AbstractFunction()` and the name
`AbstractFunction` is defined nowhere in the module (only
`AbstractFunctionError` is imported), so the caller gets a `NameError`,
not the distinguished capability signal. -/
theorem c3_hooks_eval :
    rBase.c_literal = Except.error PyError.abstractFunctionError ∧
    rBase.c_declare "v" "" = Except.error PyError.abstractFunctionError ∧
    rBase.c_extract "v" "" = Except.error PyError.abstractFunctionError ∧
    rBase.c_cleanup "v" "" = Except.error PyError.abstractFunctionError ∧
    rBase.c_sync "v" "" = Except.error PyError.abstractFunctionError ∧
    rBase.c_compile_args = Except.error PyError.abstractFunctionError ∧
    rBase.c_headers = Except.error PyError.abstractFunctionError ∧
    rBase.c_libraries = Except.error PyError.abstractFunctionError ∧
    rBase.c_support_code = Except.error PyError.abstractFunctionError ∧
    rBase.same_properties rBase =
      Except.error (PyError.nameError "AbstractFunction") ∧
    rBase.same_properties rBase ≠
      Except.error PyError.abstractFunctionError := by
  decide

/-- C4: setting `data` to a non-`None` value `v` not identical to the
current datum on a node whose type declares no filter (the inherited
`Result.filter` raises `AbstractFunctionError`, which `__set_data`
catches) stores `v` itself and sets `state = Computed`; when a filter is
implemented and returns `w` on `v`, the filtered value `w` is stored
instead, again with `state = Computed`. -/
theorem c4_filter_store (r : Result) (v : Nat) :
    (some v ≠ r._data →
      r.set_data Result.filter (some v) =
        Except.ok { r with _data := some v, state := State.Computed }) ∧
    (∀ (filt : Nat → Except PyError Nat) (w : Nat), filt v = Except.ok w →
      some v ≠ r._data →
      r.set_data filt (some v) =
        Except.ok { r with _data := some w, state := State.Computed }) := by
  constructor
  · intro h
    unfold Result.set_data
    simp [h, Result.filter]
  · intro filt w hf h
    unfold Result.set_data
    simp [h, hf]

/-- C4 witness: storing `7` into a fresh node, unfiltered and through an
incrementing filter. -/
theorem c4_witness :
    rBase.set_data Result.filter (some 7) =
      Except.ok { rBase with _data := some 7, state := State.Computed } ∧
    rBase.set_data (fun d => Except.ok (d + 1)) (some 7) =
      Except.ok { rBase with _data := some 8, state := State.Computed } :=
  ⟨(c4_filter_store rBase 7).1 (by decide),
   (c4_filter_store rBase 7).2 (fun d => Except.ok (d + 1)) 8 rfl (by decide)⟩

/-- C5: assigning the exact object currently held in the slot is a no-op:
`__set_data` returns on the identity test `data is self._data[0]` before
touching the slot, the state, or the filter, so the node is returned
unchanged whatever the filter method would do (the result is the same for
every `filt`, which is exactly the observation that the filter hook is
never invoked). -/
theorem c5_identical_noop (r : Result) (filt : Nat → Except PyError Nat) :
    r.set_data filt r._data = Except.ok r := by
  unfold Result.set_data
  simp

/-- C7: equality of nodes is `self is other` — two instances with
different object ids compare unequal under `__eq__` and "not equal" under
`__ne__` even when all their slots (data, role, even `_hash_id`) agree,
and in general `__eq__` answers true exactly on identical instances. -/
theorem c7_identity_eq (a b : Result) (h : a.oid ≠ b.oid) :
    Result.eq a b = false ∧ Result.ne a b = true ∧
    (∀ c d : Result, Result.eq c d = true ↔ c.oid = d.oid) := by
  refine ⟨?_, ?_, ?_⟩ <;> simp [Result.eq, Result.ne, h]

/-- C7 witness: the twins `rTwinA`/`rTwinB`, identical in data, role and
hash, differing only in object id. -/
theorem c7_witness :
    Result.eq rTwinA rTwinB = false ∧ Result.ne rTwinA rTwinB = true :=
  ⟨(c7_identity_eq rTwinA rTwinB (by decide)).1,
   (c7_identity_eq rTwinA rTwinB (by decide)).2.1⟩

/-- An op whose second output (index 1) is the node with object id 34. -/
def opC : Owner := { oid := 102, clsStr := "Op3", outputs := [33, 34] }

/-- An unnamed node bound as output 1 of `opC` and present in its
`outputs` list. -/
def rDerived : Result :=
  { oid := 34, _role := some (opC, 1), _data := none, state := State.Empty,
    _name := none, _hash_id := 9 }

/-- A node with an explicitly set (non-empty) name. -/
def rNamed : Result :=
  { oid := 35, _role := none, _data := none, state := State.Empty,
    _name := some "x", _hash_id := 13 }

/-- C6 counterexample: an unnamed, unbound node.  The `name` property
returns Python `None`, not the string `"anonymous"` the claim promises. -/
theorem c6_counterexample :
    rBase.getName = Except.ok none ∧
    rBase.getName ≠ Except.ok (some "anonymous") := by
  decide

/-- C6 amended: reading `name` returns the explicitly set name when a
non-empty name is stored; otherwise, when the role is bound and the node
occurs in its owner's `outputs` list at first position `k`, the derived
string `str(owner class) ++ "." ++ k` (the printed index is the node's
position in the owner's outputs, which equals the role index only under
the intended graph invariant); otherwise `None` — there is no
`"anonymous"` value. -/
theorem c6_amended (r : Result) (s : String) (o : Owner) (i : Int) (k : Nat) :
    (r._name = some s → s ≠ "" → r.getName = Except.ok (some s)) ∧
    (Result.truthyName r._name = false → r._role = some (o, i) →
      o.outputs.findIdx? (fun x => x == r.oid) = some k →
      r.getName = Except.ok (some (o.clsStr ++ "." ++ toString k))) ∧
    (Result.truthyName r._name = false → r._role = none →
      r.getName = Except.ok none) := by
  refine ⟨?_, ?_, ?_⟩
  · intro hn hne
    unfold Result.getName
    simp [Result.truthyName, hn, hne]
  · intro ht hrole hidx
    unfold Result.getName
    simp [ht, hrole, hidx]
  · intro ht hrole
    unfold Result.getName
    simp [ht, hrole]

/-- C6 witness: the three branches at concrete nodes — explicit name,
derived name of output 1 of `opC`, and the unnamed unbound node. -/
theorem c6_witness :
    rNamed.getName = Except.ok (some "x") ∧
    rDerived.getName = Except.ok (some "Op3.1") ∧
    rBase.getName = Except.ok none :=
  ⟨(c6_amended rNamed "x" opC 1 1).1 rfl (by decide),
   (c6_amended rDerived "x" opC 1 1).2.1 (by decide) rfl (by decide),
   (c6_amended rBase "x" opC 1 1).2.2 (by decide) rfl⟩

/-- When the `name` property read raises, `PythonResult.__copy__`
propagates that exception. -/
theorem pythonResultCopy_err (r : Result) (heap : Heap)
    (frid fh fo : Nat) (e : PyError) (hn : r.getName = Except.error e) :
    pythonResultCopy r heap frid fh fo = Except.error e := by
  unfold pythonResultCopy
  rw [hn]
  rfl

/-- Closed form of `PythonResult.__copy__` when the `name` read succeeds:
a `None` datum is copied to a clone with an empty slot and the untouched
heap; a real datum `o` yields a clone holding the fresh object `fo`
(stored raw, `Computed`) on a heap where `fo` carries `o`'s payload. -/
theorem pythonResultCopy_ok (r : Result) (heap : Heap)
    (frid fh fo : Nat) (nm : Option String)
    (hn : r.getName = Except.ok nm) :
    pythonResultCopy r heap frid fh fo =
      match r._data with
      | none => Except.ok (Result.init frid none nm fh, heap)
      | some o =>
          Except.ok
            ({ Result.init frid none nm fh with
                _data := some fo, state := State.Computed },
             fun x => if x = fo then heap o else heap x) := by
  unfold pythonResultCopy
  rw [hn]
  cases hd : r._data with
  | none => rfl
  | some o => rfl

/-- C8: `__copy__` on the base class raises `AbstractFunctionError` (the
spec's `UnsupportedCapability`); when `PythonResult.__copy__` returns a
clone, the clone's role is `None` and its datum is the fresh object
`copy.copy` allocated: a `None` datum stays `None`, a real datum `o` is
copied to the fresh object `fo` carrying the same payload, and an
in-place mutation of the clone's datum `fo` leaves the payload of the
original datum `o` untouched. -/
theorem c8_clone (r : Result) (heap : Heap) (frid fh fo : Nat)
    (hfresh : ∀ o, r._data = some o → fo ≠ o) :
    Result.copy r = Except.error PyError.abstractFunctionError ∧
    (∀ (rv : Result) (h2 : Heap),
      pythonResultCopy r heap frid fh fo = Except.ok (rv, h2) →
      rv._role = none ∧
      (r._data = none → rv._data = none ∧ rv.state = State.Empty) ∧
      (∀ o, r._data = some o →
        rv._data = some fo ∧ rv.state = State.Computed ∧
        h2 fo = heap o ∧
        ∀ v, setPayload h2 fo v o = h2 o)) := by
  refine ⟨rfl, ?_⟩
  intro rv h2 hcp
  cases hn : r.getName with
  | error e =>
    rw [pythonResultCopy_err r heap frid fh fo e hn] at hcp
    exact Except.noConfusion hcp
  | ok nm =>
    rw [pythonResultCopy_ok r heap frid fh fo nm hn] at hcp
    cases hd : r._data with
    | none =>
      rw [hd] at hcp
      have h := Except.ok.inj hcp
      rw [Prod.mk.injEq] at h
      obtain ⟨h1, hh⟩ := h
      subst h1
      refine ⟨rfl, fun _ => ⟨rfl, rfl⟩, ?_⟩
      intro o ho
      exact Option.noConfusion ho
    | some o =>
      rw [hd] at hcp
      have h := Except.ok.inj hcp
      rw [Prod.mk.injEq] at h
      obtain ⟨h1, hh⟩ := h
      subst h1
      have hne : fo ≠ o := hfresh o hd
      refine ⟨rfl, ?_, ?_⟩
      · intro h0
        exact Option.noConfusion h0
      · intro o2 ho2
        obtain rfl : o = o2 := Option.some.inj ho2
        refine ⟨rfl, rfl, ?_, ?_⟩
        · rw [← hh]
          simp
        · intro v
          rw [← hh]
          simp [setPayload, Ne.symm hne]

/-- C8 witness: cloning `rDatum` (datum object 5, payload 0) with fresh
ids 60/61/62; mutating the clone's datum 62 to 99 leaves object 5's
payload. -/
theorem c8_witness :
    Result.copy rDatum = Except.error PyError.abstractFunctionError ∧
    ({ oid := 60, _role := none, _data := some 62, state := State.Computed,
       _name := none, _hash_id := 61 } : Result)._role = none ∧
    ({ oid := 60, _role := none, _data := some 62, state := State.Computed,
       _name := none, _hash_id := 61 } : Result)._data = some 62 ∧
    setPayload (fun x => if x = 62 then 0 else 0) 62 99 5 =
      (fun x => if x = 62 then (0 : Int) else 0) 5 := by
  have T := c8_clone rDatum (fun _ => 0) 60 61 62
    (by intro o ho; simp [rDatum] at ho; omega)
  have hp : pythonResultCopy rDatum (fun _ => 0) 60 61 62 =
      Except.ok
        ({ oid := 60, _role := none, _data := some 62,
           state := State.Computed, _name := none, _hash_id := 61 },
         fun x => if x = 62 then 0 else 0) := rfl
  have C := T.2 _ _ hp
  exact ⟨T.1, C.1, (C.2.2 5 rfl).1, (C.2.2 5 rfl).2.2.2 99⟩

/-- C9 counterexample: from a state where the host binding references
object 0 with reference count 1, running the emitted
`declare → extract → sync` fragments leaves the binding on object 0 but
its reference count at 2: the strong reference `extract` acquired for the
native handle is still outstanding (it is only released by `cleanup`), so
the three-step sequence alone does not leave the counts unchanged. -/
theorem c9_counterexample :
    (runC (declareInstrs ++ extractInstrs ++ syncInstrs)
      ⟨some 0, none, fun _ => 1⟩).py = some 0 ∧
    (runC (declareInstrs ++ extractInstrs ++ syncInstrs)
      ⟨some 0, none, fun _ => 1⟩).rc 0 = 2 ∧
    ((fun _ => 1 : Nat → Int) 0 = 1) := by
  refine ⟨rfl, ?_, rfl⟩
  simp [runC, step, bump, declareInstrs, extractInstrs, syncInstrs,
    CState.get, CState.setVar]

/-- C9 amended: `extract` acquires exactly one strong reference to the
bound host value (its count rises by one, every other count is untouched,
and the handle now references it); `cleanup` releases exactly the
handle's reference (one decrement on the handle's referent, no other
count touched) and never writes the host binding variable; and the full
balanced sequence `declare → extract(v) → sync → cleanup` leaves the
host binding referencing `v` with every reference count exactly as it
started — no leak and no double release. -/
theorem c9_amended (rc0 : Nat → Int) (v : Nat) (c0 : Option Nat) :
    ((runC extractInstrs ⟨some v, c0, rc0⟩).cvr = some v ∧
     (runC extractInstrs ⟨some v, c0, rc0⟩).py = some v ∧
     (runC extractInstrs ⟨some v, c0, rc0⟩).rc v = rc0 v + 1 ∧
     ∀ x, x ≠ v → (runC extractInstrs ⟨some v, c0, rc0⟩).rc x = rc0 x) ∧
    (∀ w : Nat,
     (runC cleanupInstrs ⟨some v, some w, rc0⟩).py = some v ∧
     (runC cleanupInstrs ⟨some v, some w, rc0⟩).cvr = some w ∧
     (runC cleanupInstrs ⟨some v, some w, rc0⟩).rc w = rc0 w - 1 ∧
     ∀ x, x ≠ w → (runC cleanupInstrs ⟨some v, some w, rc0⟩).rc x = rc0 x) ∧
    ((runC (declareInstrs ++ extractInstrs ++ syncInstrs ++ cleanupInstrs)
        ⟨some v, c0, rc0⟩).py = some v ∧
     ∀ x, (runC (declareInstrs ++ extractInstrs ++ syncInstrs ++
        cleanupInstrs) ⟨some v, c0, rc0⟩).rc x = rc0 x) := by
  refine ⟨⟨?_, ?_, ?_, ?_⟩, ?_, ?_, ?_⟩
  · simp [runC, step, bump, extractInstrs, CState.get, CState.setVar]
  · simp [runC, step, bump, extractInstrs, CState.get, CState.setVar]
  · simp [runC, step, bump, extractInstrs, CState.get, CState.setVar]
  · intro x hx
    simp [runC, step, bump, extractInstrs, CState.get, CState.setVar, hx]
  · intro w
    refine ⟨rfl, rfl, ?_, ?_⟩
    · simp [runC, step, bump, cleanupInstrs, CState.get, CState.setVar]
      ring
    · intro x hx
      simp [runC, step, bump, cleanupInstrs, CState.get, CState.setVar, hx]
  · simp [runC, step, bump, declareInstrs, extractInstrs, syncInstrs,
      cleanupInstrs, CState.get, CState.setVar]
  · intro x
    by_cases hx : x = v
    · subst hx
      simp [runC, step, bump, declareInstrs, extractInstrs, syncInstrs,
        cleanupInstrs, CState.get, CState.setVar]
    · simp [runC, step, bump, declareInstrs, extractInstrs, syncInstrs,
        cleanupInstrs, CState.get, CState.setVar, hx]

/-- C9 witness: concrete runs with object 0 bound at count 3: `extract`
raises the count to 4 (object 3 untouched), `cleanup` on a handle to
object 1 lowers its count to 2 while the binding still references
object 0, and the full sequence restores every count (object 5 shown). -/
theorem c9_witness :
    (runC extractInstrs ⟨some 0, none, fun _ => 3⟩).rc 0 =
      (fun _ => (3 : Int)) 0 + 1 ∧
    (runC extractInstrs ⟨some 0, none, fun _ => 3⟩).rc 3 =
      (fun _ => (3 : Int)) 3 ∧
    (runC cleanupInstrs ⟨some 0, some 1, fun _ => 3⟩).py = some 0 ∧
    (runC cleanupInstrs ⟨some 0, some 1, fun _ => 3⟩).rc 1 =
      (fun _ => (3 : Int)) 1 - 1 ∧
    (runC (declareInstrs ++ extractInstrs ++ syncInstrs ++ cleanupInstrs)
      ⟨some 0, none, fun _ => 3⟩).rc 5 = (fun _ => (3 : Int)) 5 :=
  ⟨(c9_amended (fun _ => 3) 0 none).1.2.2.1,
   (c9_amended (fun _ => 3) 0 none).1.2.2.2 3 (by decide),
   ((c9_amended (fun _ => 3) 0 none).2.1 1).1,
   ((c9_amended (fun _ => 3) 0 none).2.1 1).2.2.1,
   (c9_amended (fun _ => 3) 0 none).2.2.2 5⟩

/-- C10: the hash of a node is the `utils.hashgen()` token stored at
construction (a parameter independent of role, name and data), and every
subsequent operation preserves it: a successful data assignment or
clearing, a successful role binding, renaming, and an external write of
the `state` slot all leave `__hash__`'s value unchanged, so a node stays
a stable dictionary or set key across mutations. -/
theorem c10_hash_stable (oid : Nat) (role : Option (Owner × Int))
    (nm : Option String) (hid : Nat) :
    (Result.init oid role nm hid).hash = hid ∧
    (∀ (r : Result) (filt : Nat → Except PyError Nat) (d : Option Nat)
       (r' : Result),
       r.set_data filt d = Except.ok r' → r'.hash = r.hash) ∧
    (∀ (r : Result) (ro : Owner × Int) (r' : Result),
       r.set_role ro = Except.ok r' → r'.hash = r.hash) ∧
    (∀ (r : Result) (n : Option String), (r.set_name n).hash = r.hash) ∧
    (∀ (r : Result) (st : State),
       ({ r with state := st } : Result).hash = r.hash) := by
  refine ⟨rfl, ?_, ?_, ?_, ?_⟩
  · intro r filt d r' h
    unfold Result.set_data at h
    split at h
    · cases h
      rfl
    · cases d with
      | none =>
        simp at h
        cases h
        rfl
      | some v =>
        simp at h
        cases hf : filt v with
        | ok w =>
          rw [hf] at h
          cases h
          rfl
        | error e =>
          rw [hf] at h
          cases e <;> simp_all
          cases h
          rfl
  · intro r ro r' h
    unfold Result.set_role at h
    split at h
    · split at h
      · cases h
      · split at h
        · cases h
        · cases h
          rfl
    · cases h
      rfl
  · intro r n
    rfl
  · intro r st
    rfl

/-- C10 witness: a concrete construction with token 42 and concrete
data/role/name/state operations on `rBase` and `rBound`. -/
theorem c10_witness :
    (Result.init 1 none none 42).hash = 42 ∧
    ({ rBase with _data := some 7, state := State.Computed } : Result).hash =
      rBase.hash ∧
    rBound.hash = rBound.hash ∧
    (rBase.set_name (some "n")).hash = rBase.hash ∧
    ({ rBase with state := State.Allocated } : Result).hash = rBase.hash :=
  ⟨(c10_hash_stable 1 none none 42).1,
   (c10_hash_stable 1 none none 42).2.1 rBase Result.filter (some 7)
     { rBase with _data := some 7, state := State.Computed } (by decide),
   (c10_hash_stable 1 none none 42).2.2.1 rBound (opA, 2) rBound (by decide),
   (c10_hash_stable 1 none none 42).2.2.2.1 rBase (some "n"),
   (c10_hash_stable 1 none none 42).2.2.2.2 rBase State.Allocated⟩

end Gof
